import Mathlib

/-!
Verification of the natural-language specification of the
`jlab-sensing/irrigation-demo` repository against a shallow embedding of its
two Python source files, `remote_solenoid.py` (solenoid control client with a
background status-polling loop) and `demoPullRequests.py` (sensor-data client
with a display formatter).

Conventions of the embedding:
* Machine-level details that the claims never inspect (exact strftime
  renderings, the textual content of a fetched status snapshot) are carried
  as presentation-neutral data: timestamps are epoch-second instants
  (`Int`), measurement values are rationals (`ℚ`).
* Stateful code is embedded as explicit state passing (`MonState`) or as a
  step relation on a phase type (`MonPhase`) driven by a fuel parameter and
  a per-step view of the shared `auto_monitoring_active` flag.
* Fallible Python code is embedded with `Except PyErr`; a `try/except` block
  becomes a `match` on the `Except` value.
-/

namespace IrrigationDemo

/-- Python exception values that the embedded code can raise.  `keyError`
carries the list of missing keys/columns (pandas reports all missing labels
of a column selection at once). -/
inductive PyErr
  | keyError (keys : List String)
  | requestExc (msg : String)
  | valueError (msg : String)
deriving DecidableEq, Repr

/-! ## remote_solenoid.py: monitoring state (lines 12-14, 79-102) -/

/-- The two module-level globals of `remote_solenoid.py` (lines 12-14):
`auto_monitoring_active` and `monitoring_thread`.  The thread handle is
`none` when `monitoring_thread is None`, and `some b` when a `Thread`
object exists with `is_alive() = b`. -/
structure MonState where
  auto_monitoring_active : Bool
  monitoring_thread : Option Bool
deriving DecidableEq, Repr

/-- The guard `monitoring_thread and monitoring_thread.is_alive()` of
line 83: a `Thread` object is always truthy, so the test is true exactly
when a thread object exists and is alive. -/
def threadIsAlive (s : MonState) : Bool :=
  match s.monitoring_thread with
  | some b => b
  | none => false

/-- Result of one call to `start_auto_monitoring`: the new global state, the
lines printed, and whether `threading.Thread(...).start()` ran. -/
structure StartResult where
  state : MonState
  prints : List String
  spawned : Bool
deriving DecidableEq, Repr

/-- Embedding of `start_auto_monitoring` (lines 79-94).  If a live thread
exists it prints the already-running diagnostic and returns with the
globals untouched; otherwise it sets the active flag, stores and starts a
fresh (hence alive) daemon thread, and reports the start. -/
def start_auto_monitoring (s : MonState) : StartResult :=
  if threadIsAlive s then
    ⟨s, ["Auto monitoring is already running"], false⟩
  else
    ⟨⟨true, some true⟩, ["Auto monitoring started"], true⟩

/-- Embedding of `stop_auto_monitoring` (lines 96-102): clears the active
flag and prints; the thread handle is not touched and the thread is not
joined. -/
def stop_auto_monitoring (s : MonState) : MonState × List String :=
  ⟨⟨false, s.monitoring_thread⟩, ["Auto monitoring stopping..."]⟩

/-! ## remote_solenoid.py: the polling loop (lines 44-77)

`monitor_status_continuously` is a while loop over the shared flag.  One
iteration increments `cycle_count`, fetches and prints a status line
(summary, digest, or failure line - lines 55-69), then runs the
interruptible sleep `for i in range(check_interval): if not
auto_monitoring_active: break; time.sleep(1)`.  The embedding is a step
machine over the control points at which the loop reads the flag, driven
by a fuel parameter; each step reads the flag value current at that step.
-/

/-- Control points of `monitor_status_continuously`:
`checkWhile c` is the `while auto_monitoring_active` test with
`cycle_count = c`; `body c` is the fetch-and-print part of iteration `c`
(lines 53-69, already committed to run); `sleepCheck c i` is the flag test
of the sleep loop at index `i` (line 73); `done` is after line 77. -/
inductive MonPhase
  | checkWhile (cycle : Nat)
  | body (cycle : Nat)
  | sleepCheck (cycle : Nat) (i : Nat)
  | done
deriving DecidableEq, Repr

/-- Observable events of the loop: a cycle's status output (any of the
summary / one-line digest / failure prints of lines 55-69), one
`time.sleep(1)` (line 75), and the final print of line 77. -/
inductive MonEvent
  | statusOut (cycle : Nat)
  | sleep1
  | stoppedMsg
deriving DecidableEq, Repr

/-- One step of the loop from a control point, given the flag value read at
that point.  `checkWhile`: a true flag enters the next iteration
(incrementing `cycle_count`, line 53), a false flag exits printing the
stopped message.  `body`: emits the cycle's status output and enters the
sleep loop.  `sleepCheck`: while `i < check_interval`, a true flag sleeps
one second and advances, a false flag breaks out of the sleep loop; when
the range is exhausted control returns to the while test. -/
def monStep (check_interval : Nat) (flag : Bool) : MonPhase → MonPhase × List MonEvent
  | .checkWhile c =>
      if flag then (.body (c + 1), []) else (.done, [.stoppedMsg])
  | .body c => (.sleepCheck c 0, [.statusOut c])
  | .sleepCheck c i =>
      if i < check_interval then
        if flag then (.sleepCheck c (i + 1), [.sleep1]) else (.checkWhile c, [])
      else (.checkWhile c, [])
  | .done => (.done, [])

/-- Run the loop for `fuel` steps starting at step index `k`; the shared
flag is modelled as a function of the step index, so a concurrent
`stop_auto_monitoring` is a point after which the function is `false`.
Returns the final control point and the emitted events. -/
def monRun (check_interval : Nat) (flag : Nat → Bool) :
    Nat → Nat → MonPhase → MonPhase × List MonEvent
  | 0, _, p => (p, [])
  | fuel + 1, k, p =>
      let s := monStep check_interval (flag k) p
      let r := monRun check_interval flag fuel (k + 1) s.1
      (r.1, s.2 ++ r.2)

/-- Fuel needed to reach `done` from a control point once the flag is
permanently false. -/
def monExitFuel : MonPhase → Nat
  | .checkWhile _ => 1
  | .body _ => 3
  | .sleepCheck _ _ => 2
  | .done => 0

/-- Whether an event is a status output. -/
def isStatusOut : MonEvent → Bool
  | .statusOut _ => true
  | _ => false

lemma monRun_done (ci : Nat) (flag : Nat → Bool) (fuel k : Nat) :
    monRun ci flag fuel k .done = (.done, []) := by
  induction fuel generalizing k with
  | zero => rfl
  | succ n ih => simp [monRun, monStep, ih]

/-- With the flag permanently false, a run from any control point emits no
sleep, emits at most one status output (none unless it starts inside a
body), and reaches `done` once the fuel covers `monExitFuel`. -/
lemma monRun_flag_false (ci : Nat) (flag : Nat → Bool) (hflag : ∀ j, flag j = false)
    (fuel k : Nat) (p : MonPhase) :
    MonEvent.sleep1 ∉ (monRun ci flag fuel k p).2
    ∧ ((monRun ci flag fuel k p).2.countP isStatusOut) ≤ 1
    ∧ ((∀ c, p ≠ MonPhase.body c) → ∀ c, MonEvent.statusOut c ∉ (monRun ci flag fuel k p).2)
    ∧ (monExitFuel p ≤ fuel → (monRun ci flag fuel k p).1 = MonPhase.done) := by
  induction fuel generalizing k p with
  | zero =>
    refine ⟨by simp [monRun], by simp [monRun], fun _ c => by simp [monRun], fun h => ?_⟩
    have : p = MonPhase.done := by
      cases p
      · exact absurd h (by simp [monExitFuel])
      · exact absurd h (by simp [monExitFuel])
      · exact absurd h (by simp [monExitFuel])
      · rfl
    simp [monRun, this]
  | succ n ih =>
    cases p with
    | done =>
      rw [monRun_done]
      exact ⟨by simp, by simp, fun _ c => by simp, fun _ => rfl⟩
    | checkWhile c =>
      have hstep : monRun ci flag (n + 1) k (.checkWhile c)
          = ((monRun ci flag n (k + 1) .done).1,
             [MonEvent.stoppedMsg] ++ (monRun ci flag n (k + 1) .done).2) := by
        simp [monRun, monStep, hflag k]
      rw [hstep, monRun_done]
      exact ⟨by simp, by simp [List.countP, List.countP.go, isStatusOut],
        fun _ c' => by simp, fun _ => rfl⟩
    | sleepCheck c i =>
      have hstep : monRun ci flag (n + 1) k (.sleepCheck c i)
          = ((monRun ci flag n (k + 1) (.checkWhile c)).1,
             [] ++ (monRun ci flag n (k + 1) (.checkWhile c)).2) := by
        simp only [monRun, monStep, hflag k]
        split <;> simp
      obtain ⟨ih1, ih2, ih3, ih4⟩ := ih (k + 1) (.checkWhile c)
      rw [hstep]
      refine ⟨by simpa using ih1, by simpa using ih2,
        fun _ c' => by simpa using ih3 (by intro c'' h; cases h) c', fun h => ?_⟩
      have : monExitFuel (.checkWhile c) ≤ n := by
        simp [monExitFuel] at h ⊢; omega
      simpa using ih4 this
    | body c =>
      have hstep : monRun ci flag (n + 1) k (.body c)
          = ((monRun ci flag n (k + 1) (.sleepCheck c 0)).1,
             MonEvent.statusOut c :: (monRun ci flag n (k + 1) (.sleepCheck c 0)).2) := rfl
      obtain ⟨ih1, ih2, ih3, ih4⟩ := ih (k + 1) (.sleepCheck c 0)
      rw [hstep]
      have hnost := ih3 (by intro c'' h; cases h)
      have hz : (monRun ci flag n (k + 1) (.sleepCheck c 0)).2.countP isStatusOut = 0 := by
        rw [List.countP_eq_zero]
        intro a ha
        cases a with
        | statusOut c' => exact absurd ha (hnost c')
        | sleep1 => decide
        | stoppedMsg => decide
      refine ⟨?_, ?_, ?_, fun h => ?_⟩
      · intro hmem
        rcases List.mem_cons.mp hmem with h | h
        · exact MonEvent.noConfusion h
        · exact ih1 h
      · simp [List.countP_cons, hz, isStatusOut]
      · intro hnb
        exact absurd rfl (hnb c)
      · have : monExitFuel (.sleepCheck c 0) ≤ n := by
          simp [monExitFuel] at h ⊢; omega
        simpa using ih4 this

/-- Claim C1: at most one status-monitoring thread ever runs at a time.  A
call to `start_auto_monitoring` made while a previously started monitoring
thread is still alive spawns no new thread, leaves the monitoring state
unchanged, and prints the already-running diagnostic; only a call made when
no monitoring thread is alive sets the active flag and starts a thread. -/
theorem claim_C1 (s : MonState) :
    (threadIsAlive s = true →
      start_auto_monitoring s
        = ⟨s, ["Auto monitoring is already running"], false⟩)
    ∧ (threadIsAlive s = false →
      (start_auto_monitoring s).state.auto_monitoring_active = true
      ∧ (start_auto_monitoring s).spawned = true
      ∧ (start_auto_monitoring s).prints = ["Auto monitoring started"]) := by
  constructor
  · intro h
    simp [start_auto_monitoring, h]
  · intro h
    simp [start_auto_monitoring, h]

/-- Witness for C1 at a concrete state: a live thread with the active flag
set; the call is a no-op apart from the diagnostic. -/
theorem claim_C1_witness :
    start_auto_monitoring ⟨true, some true⟩
      = ⟨⟨true, some true⟩, ["Auto monitoring is already running"], false⟩ :=
  (claim_C1 ⟨true, some true⟩).1 rfl

/-- Counterexample to claim C2 as stated.  The claim says that after
`stop_auto_monitoring` clears the active flag, the monitoring loop prints
no further status lines.  Run the loop with the flag false at every
remaining flag check (the strongest reading of "after the stop call") from
the control point `body 1`, i.e. a first cycle whose body is already in
progress when the flag is cleared: the loop still prints that cycle's
status line (lines 55-69 run to completion before the sleep-loop flag
check) before exiting.  So a stop call does not prevent one further status
print, refuting the claim. -/
theorem claim_C2_counterexample :
    (monRun 30 (fun _ => false) 4 0 (MonPhase.body 1)).2
      = [MonEvent.statusOut 1, MonEvent.stoppedMsg]
    ∧ (monRun 30 (fun _ => false) 4 0 (MonPhase.body 1)).1 = MonPhase.done := by
  constructor <;> rfl

/-- Claim C2, amended: once the active flag is cleared (false at every
subsequent flag check), the monitoring loop performs no further one-second
sleep at all - the sleep loop of lines 72-75 tests the flag before each
`time.sleep(1)`, so a stop never waits for the configured interval - and
prints at most one further status line, namely the one of a cycle whose
body was already in progress; from the while test or from inside the sleep
loop it prints no status line at all, and with enough fuel the loop
reaches its exit print. -/
theorem claim_C2_amended (check_interval fuel k : Nat) (flag : Nat → Bool)
    (p : MonPhase) (hflag : ∀ j, flag j = false) :
    MonEvent.sleep1 ∉ (monRun check_interval flag fuel k p).2
    ∧ ((monRun check_interval flag fuel k p).2.countP isStatusOut) ≤ 1
    ∧ ((∀ c, p ≠ MonPhase.body c) →
        ∀ c, MonEvent.statusOut c ∉ (monRun check_interval flag fuel k p).2)
    ∧ (monExitFuel p ≤ fuel → (monRun check_interval flag fuel k p).1 = MonPhase.done) :=
  monRun_flag_false check_interval flag hflag fuel k p

/-- Witness for C2 (amended) at concrete inputs: stopping during the sleep
loop of the first cycle yields zero further sleeps, zero further status
prints, and immediate exit. -/
theorem claim_C2_witness :
    MonEvent.sleep1 ∉ (monRun 30 (fun _ => false) 4 0 (MonPhase.sleepCheck 1 3)).2
    ∧ ((monRun 30 (fun _ => false) 4 0 (MonPhase.sleepCheck 1 3)).2.countP isStatusOut) = 0
    ∧ (monRun 30 (fun _ => false) 4 0 (MonPhase.sleepCheck 1 3)).1 = MonPhase.done := by
  obtain ⟨h1, _, h3, h4⟩ :=
    claim_C2_amended 30 4 0 (fun _ => false) (MonPhase.sleepCheck 1 3) (fun _ => rfl)
  refine ⟨h1, ?_, h4 (by decide)⟩
  rw [List.countP_eq_zero]
  intro a ha
  cases a with
  | statusOut c =>
    exact absurd ha (h3 (by intro c' h; cases h) c)
  | sleep1 => exact absurd ha h1
  | stoppedMsg => decide

/-! ## remote_solenoid.py: command dispatch (lines 104-245)

`send_command(command)` dispatches on the command keyword and on
`len(sys.argv)`.  The embedding records, as a trace of actions, every
print, HTTP request, monitoring start/stop and the post-dispatch response
status check, together with the `sys.exit` code if one is raised.
`sys.exit(1)` raises `SystemExit`, which is not an `Exception` subclass,
so it is not caught by the `except` clauses of lines 241-245 and the
process exits with code 1.  Prints whose text embeds the body of an HTTP
response, or the content of a fetched status snapshot, are collapsed into
dedicated constructors since no claim inspects that text. -/

/-- One observable action of `send_command`. -/
inductive CmdAction
  | print (msg : String)
  | httpPost (path : String) (params : List (String × String))
      (formData : List (String × String)) (timeout : Nat)
  | httpGet (path : String) (timeout : Nat)
  | fetchStatus
  | printResponseText
  | printStatusSummary
  | printStatusReport
  | printMoistureReport
  | printUsage
  | startMonitoring
  | stopMonitoring
  | checkResponse
deriving DecidableEq, Repr

/-- Whether an action issues an HTTP request (`requests.post`,
`requests.get`, or the GET inside `get_system_status`). -/
def isHttpAction : CmdAction → Bool
  | .httpPost _ _ _ _ => true
  | .httpGet _ _ => true
  | .fetchStatus => true
  | _ => false

/-- Result of a `send_command` run: the action trace up to the point where
control leaves the function, and the `SystemExit` code if `sys.exit` ran. -/
structure SendResult where
  actions : List CmdAction
  exit : Option Nat
deriving DecidableEq, Repr

/-- Embedding of `send_command` (lines 104-245).  `command` is the
parameter of line 104 (always `sys.argv[1]` at the call site of line 290)
and `argv` is the global `sys.argv`.  Paths are relative to the base URL
of line 10.  Commands `status` and `moisture_check` leave the local
`response` as `None`, so they skip the response status check of lines
234-239; every command that assigns `response` reaches it (when no
`sys.exit` fired), recorded as `checkResponse`. -/
def send_command (command : String) (argv : List String) : SendResult :=
  let n := argv.length
  let arg2 := argv.getD 2 ""
  let arg3 := argv.getD 3 ""
  if command = "open" then
    if n > 2 then
      ⟨[.print "\r\nError: Too many arguments.\r\nFormat: python remote_solenoid.py open\r\n"],
       some 1⟩
    else
      ⟨[.httpPost "/open" [] [] 5, .print "Triggering solenoid", .printResponseText,
        .checkResponse], none⟩
  else if command = "close" then
    if n > 2 then
      ⟨[.print "\r\nError: Too many arguments.\r\nFormat: python remote_solenoid.py close\r\n"],
       some 1⟩
    else
      ⟨[.httpPost "/close" [] [] 5, .print "Triggering solenoid", .printResponseText,
        .checkResponse], none⟩
  else if command = "timed" then
    if n < 3 then
      ⟨[.print "Error: Time duration not set.\r\nFormat: python remote_solenoid.py timed [seconds].\r\n"],
       some 1⟩
    else if n > 3 then
      ⟨[.print "Error: Too many arguments.\r\nFormat: python remote_solenoid.py timed [seconds].\r\n"],
       some 1⟩
    else
      ⟨[.httpPost "/timed" [("time", arg2)] [] 5,
        .print ("Turning on solenoid for " ++ arg2 ++ " seconds."), .printResponseText,
        .checkResponse], none⟩
  else if command = "state" then
    if n > 2 then
      ⟨[.print "\r\nError: Too many arguments.\r\nFormat: python remote_solenoid.py state\r\n"],
       some 1⟩
    else
      ⟨[.httpGet "/state" 5, .printResponseText, .checkResponse], none⟩
  else if command = "set_thresholds" then
    if n ≠ 4 then
      ⟨[.print "Error: Usage: python remote_solenoid.py set_thresholds <min> <max>",
        .print "Example: python remote_solenoid.py set_thresholds 30 60"], some 1⟩
    else
      ⟨[.httpPost "/irrigation_setup" [] [("min", arg2), ("max", arg3)] 5,
        .print ("Set thresholds: Min=" ++ arg2 ++ "%, Max=" ++ arg3 ++ "%"),
        .printResponseText, .checkResponse], none⟩
  else if command = "auto_irrigation" then
    if n ≠ 4 then
      ⟨[.print "Error: Usage: python remote_solenoid.py auto_irrigation <min> <max>",
        .print "Example: python remote_solenoid.py auto_irrigation 30 60"], some 1⟩
    else
      ⟨[.httpPost "/irrigation_setup" [] [("min", arg2), ("max", arg3), ("enable", "true")] 5,
        .print ("Auto irrigation enabled: Moisture < " ++ arg2 ++ "% → OPEN, > "
          ++ arg3 ++ "% → CLOSE"),
        .printResponseText, .startMonitoring, .checkResponse], none⟩
  else if command = "auto_on" then
    ⟨[.httpPost "/auto" [] [("enable", "true")] 5, .print "Automatic irrigation enabled",
      .printResponseText, .fetchStatus, .printStatusSummary, .startMonitoring,
      .checkResponse], none⟩
  else if command = "auto_off" then
    ⟨[.httpPost "/auto" [] [("enable", "false")] 5, .print "Automatic irrigation disabled",
      .printResponseText, .stopMonitoring, .checkResponse], none⟩
  else if command = "status" then
    ⟨[.fetchStatus, .printStatusReport], none⟩
  else if command = "moisture_check" then
    ⟨[.fetchStatus, .printMoistureReport], none⟩
  else
    ⟨[.print ("Error: Unknown command " ++ command), .printUsage], some 1⟩

/-- Embedding of the response status check of lines 234-239, run when the
dispatch assigned a response: a non-200 status prints a server error plus
the response body, a 200 status prints only the body; it never raises and
never exits. -/
def responseStatusCheck (status : Nat) : List CmdAction :=
  if status ≠ 200 then
    [.print ("Error: Server responded with status " ++ toString status), .printResponseText]
  else
    [.printResponseText]

/-- Commands whose dispatch branch checks `len(sys.argv)` before issuing
the request (lines 110-177). -/
def checkedCommands : List String :=
  ["open", "close", "timed", "state", "set_thresholds", "auto_irrigation"]

/-- Number of `sys.argv` entries each command expects, per the usage text
of `print_usage` (lines 247-273): the script name, the command, and its
positional parameters. -/
def expectedArgvLen (c : String) : Nat :=
  if c = "timed" then 3
  else if c = "set_thresholds" ∨ c = "auto_irrigation" then 4
  else 2

/-- Counterexample to claim C4 as stated.  The claim says every command in
the dispatch, including `auto_on`, exits non-zero on an argument-count
mismatch without issuing the HTTP request.  But the `auto_on` branch
(lines 182-193) has no argument-count check at all: invoked with the
extra argument `"extra"` it still POSTs to `/auto` and never exits. -/
theorem claim_C4_counterexample :
    (send_command "auto_on" ["remote_solenoid.py", "auto_on", "extra"]).exit = none
    ∧ CmdAction.httpPost "/auto" [] [("enable", "true")] 5
        ∈ (send_command "auto_on" ["remote_solenoid.py", "auto_on", "extra"]).actions := by
  constructor
  · rfl
  · decide

/-- Claim C4, amended: the per-command argument-count guarantee holds
exactly for the six commands whose branch checks `len(sys.argv)` (`open`,
`close`, `timed`, `state`, `set_thresholds`, `auto_irrigation`): a wrong
number of arguments prints a command-specific usage error and exits with
code 1 without issuing any HTTP request.  The remaining commands
(`auto_on`, `auto_off`, `status`, `moisture_check`) perform their actions
regardless of extra arguments. -/
theorem claim_C4_amended (prog c : String) (rest : List String)
    (hc : c ∈ checkedCommands)
    (hn : rest.length + 2 ≠ expectedArgvLen c) :
    (send_command c (prog :: c :: rest)).exit = some 1
    ∧ (∀ a ∈ (send_command c (prog :: c :: rest)).actions, isHttpAction a = false)
    ∧ (send_command c (prog :: c :: rest)).actions ≠ []
    ∧ (∀ a ∈ (send_command c (prog :: c :: rest)).actions,
        ∃ m, a = CmdAction.print m) := by
  fin_cases hc
  · -- open
    have hn2 : rest.length + 2 ≠ 2 := hn
    have h0 : 0 < rest.length := by omega
    exact ⟨by simp [send_command, h0], by simp [send_command, h0, isHttpAction],
      by simp [send_command, h0], by simp [send_command, h0]⟩
  · -- close
    have hn2 : rest.length + 2 ≠ 2 := hn
    have h0 : 0 < rest.length := by omega
    exact ⟨by simp [send_command, h0], by simp [send_command, h0, isHttpAction],
      by simp [send_command, h0], by simp [send_command, h0]⟩
  · -- timed
    have hn2 : rest.length + 2 ≠ 3 := hn
    rcases Nat.lt_or_ge (rest.length + 2) 3 with h | h
    · have h0 : rest.length + 1 + 1 < 3 := by omega
      exact ⟨by simp [send_command, h0], by simp [send_command, h0, isHttpAction],
        by simp [send_command, h0], by simp [send_command, h0]⟩
    · have h0 : ¬ (rest.length + 1 + 1 < 3) := by omega
      have h1 : 3 < rest.length + 1 + 1 := by omega
      exact ⟨by simp [send_command, h0, h1], by simp [send_command, h0, h1, isHttpAction],
        by simp [send_command, h0, h1], by simp [send_command, h0, h1]⟩
  · -- state
    have hn2 : rest.length + 2 ≠ 2 := hn
    have h0 : 0 < rest.length := by omega
    exact ⟨by simp [send_command, h0], by simp [send_command, h0, isHttpAction],
      by simp [send_command, h0], by simp [send_command, h0]⟩
  · -- set_thresholds
    have hn2 : rest.length + 2 ≠ 4 := hn
    have h0 : ¬ (rest.length + 1 + 1 = 4) := by omega
    exact ⟨by simp [send_command, h0], by simp [send_command, h0, isHttpAction],
      by simp [send_command, h0], by simp [send_command, h0]⟩
  · -- auto_irrigation
    have hn2 : rest.length + 2 ≠ 4 := hn
    have h0 : ¬ (rest.length + 1 + 1 = 4) := by omega
    exact ⟨by simp [send_command, h0], by simp [send_command, h0, isHttpAction],
      by simp [send_command, h0], by simp [send_command, h0]⟩

/-- Witness for C4 (amended) at a concrete invocation: `timed` with no
duration argument exits with code 1. -/
theorem claim_C4_witness :
    (send_command "timed" ["remote_solenoid.py", "timed"]).exit = some 1 :=
  (claim_C4_amended "remote_solenoid.py" "timed" [] (by decide) (by decide)).1

/-- Claim C9: the `timed` command forwards its duration argument to the
server verbatim.  For any argument string, numeric or not, the dispatch
POSTs to `/timed` with that exact string as the `time` parameter, exits
with no error, and reaches the response status check; and that check turns
a non-200 response into an error print, never into an exception or exit -
every action of the check is a print. -/
theorem claim_C9 (prog arg : String) (status : Nat) :
    (send_command "timed" [prog, "timed", arg]).exit = none
    ∧ CmdAction.httpPost "/timed" [("time", arg)] [] 5
        ∈ (send_command "timed" [prog, "timed", arg]).actions
    ∧ CmdAction.checkResponse ∈ (send_command "timed" [prog, "timed", arg]).actions
    ∧ (status ≠ 200 →
        CmdAction.print ("Error: Server responded with status " ++ toString status)
          ∈ responseStatusCheck status)
    ∧ (∀ a ∈ responseStatusCheck status,
        a = CmdAction.printResponseText ∨ ∃ m, a = CmdAction.print m) := by
  have h : send_command "timed" [prog, "timed", arg]
      = ⟨[.httpPost "/timed" [("time", arg)] [] 5,
          .print ("Turning on solenoid for " ++ arg ++ " seconds."), .printResponseText,
          .checkResponse], none⟩ := rfl
  refine ⟨by rw [h], by rw [h]; simp, by rw [h]; simp, ?_, ?_⟩
  · intro hs
    simp [responseStatusCheck, hs]
  · intro a ha
    unfold responseStatusCheck at ha
    by_cases hs : status = 200
    · rw [if_neg (by simpa using hs)] at ha
      simp at ha
      exact Or.inl ha
    · rw [if_pos hs] at ha
      rcases List.mem_cons.mp ha with h1 | h1
      · exact Or.inr ⟨_, h1⟩
      · simp at h1
        exact Or.inl h1

/-- Witness for C9 at a concrete non-numeric duration and a concrete
non-200 response status. -/
theorem claim_C9_witness :
    CmdAction.httpPost "/timed" [("time", "abc")] [] 5
      ∈ (send_command "timed" ["remote_solenoid.py", "timed", "abc"]).actions
    ∧ (send_command "timed" ["remote_solenoid.py", "timed", "abc"]).exit = none
    ∧ CmdAction.print ("Error: Server responded with status " ++ toString 404)
      ∈ responseStatusCheck 404 := by
  obtain ⟨h1, h2, _, h4, _⟩ := claim_C9 "remote_solenoid.py" "abc" 404
  exact ⟨h2, h1, h4 (by decide)⟩

/-! ## demoPullRequests.py: get_valid_date (lines 216-236)

One loop iteration of `get_valid_date`: empty input returns the default;
otherwise `year, month, day = map(int, date_input.split('-'))` raises
`ValueError` on a non-three-way split or a non-integer component; the
explicit bounds check of line 230 reprompts with the range message; and
`datetime(year, month, day, 0, 0, 0)` (line 234) raises `ValueError` for a
day that does not exist in the month, which the `except ValueError` of
line 235 turns into the format-message reprompt.  (`ca_tz.localize` with
the default `is_dst=False` never raises, and midnight always exists in
`America/Los_Angeles` since US DST transitions happen at 2am.)  Character
parsing is embedded over `String.data`; the CPython extensions for
underscore separators and non-ASCII digits in `int()` are outside the
model. -/

/-- Outcome of one `get_valid_date` loop iteration. -/
inductive DateOutcome
  | useDefault
  | accepted (year month day : Int)
  | repromptRange
  | repromptFormat
deriving DecidableEq, Repr

/-- Python `str.split('-')` on a character list: splits at every dash,
keeping empty segments, with `[""]` for the empty string. -/
def splitDash : List Char → List (List Char)
  | [] => [[]]
  | c :: cs =>
    match splitDash cs with
    | [] => [[]]
    | g :: gs => if c = '-' then [] :: g :: gs else (c :: g) :: gs

/-- Value of a nonempty all-digit character list, `none` otherwise. -/
def digitsVal (cs : List Char) : Option Nat :=
  if cs = [] then none
  else cs.foldl
    (fun acc c => acc.bind fun n => if c.isDigit then some (10 * n + (c.toNat - 48)) else none)
    (some 0)

/-- Characters stripped by Python `int()` around a numeric string. -/
def isPySpace (c : Char) : Bool :=
  c = ' ' ∨ c = '\t' ∨ c = '\n' ∨ c = '\x0d'

/-- Python `int(s)` on a string given as a character list: optional
surrounding whitespace, an optional single sign, then decimal digits;
`none` models the `ValueError`. -/
def pyInt (cs : List Char) : Option Int :=
  let t := ((cs.dropWhile isPySpace).reverse.dropWhile isPySpace).reverse
  match t with
  | '+' :: rest => (digitsVal rest).map (Int.ofNat)
  | '-' :: rest => (digitsVal rest).map (fun n => -(Int.ofNat n))
  | _ => (digitsVal t).map (Int.ofNat)

/-- The unpacking `year, month, day = map(int, date_input.split('-'))` of
line 228: `some (y, m, d)` when the split has exactly three components and
all three parse as integers, `none` for the `ValueError` cases (wrong
component count or a non-integer component). -/
def parseYMD (s : String) : Option (Int × Int × Int) :=
  match (splitDash s.data).map pyInt with
  | [some y, some m, some d] => some (y, m, d)
  | _ => none

/-- Gregorian leap-year rule, as used by `datetime`. -/
def isLeapYear (y : Int) : Bool :=
  y % 4 = 0 ∧ (y % 100 ≠ 0 ∨ y % 400 = 0)

/-- Number of days of month `m` of year `y` (for `1 ≤ m ≤ 12`). -/
def daysInMonth (y m : Int) : Int :=
  if m = 2 then (if isLeapYear y then 29 else 28)
  else if m = 4 ∨ m = 6 ∨ m = 9 ∨ m = 11 then 30
  else 31

/-- Validity condition of the CPython `datetime(year, month, day)`
constructor: year in `MINYEAR..MAXYEAR`, month in `1..12`, day in
`1..days_in_month`; outside it the constructor raises `ValueError`. -/
def datetimeValid (y m d : Int) : Prop :=
  1 ≤ y ∧ y ≤ 9999 ∧ 1 ≤ m ∧ m ≤ 12 ∧ 1 ≤ d ∧ d ≤ daysInMonth y m

instance (y m d : Int) : Decidable (datetimeValid y m d) := by
  unfold datetimeValid
  infer_instance

/-- One loop iteration of `get_valid_date` (lines 221-236) on the string
read by `input`: empty input takes the default-date early return; a failed
parse or an invalid calendar date reaches the `except ValueError` handler
(format message); components outside the explicit bounds of line 230 take
the range-message `continue`; otherwise the localized date is returned. -/
def get_valid_date_step (date_input : String) : DateOutcome :=
  if date_input = "" then .useDefault
  else
    match parseYMD date_input with
    | none => .repromptFormat
    | some (y, m, d) =>
      if y < 2000 ∨ y > 2100 ∨ m < 1 ∨ m > 12 ∨ d < 1 ∨ d > 31 then .repromptRange
      else if datetimeValid y m d then .accepted y m d
      else .repromptFormat

/-- Counterexample to claim C3 as stated.  The claim says `get_valid_date`
performs no calendar validation beyond the bounds year 2000-2100, month
1-12, day 1-31, and that `"2025-02-30"` in particular is accepted.  The
input parses to components (2025, 2, 30) that satisfy every bound, yet the
iteration ends in the format-error reprompt, not in acceptance: the
`datetime` constructor of line 234 raises `ValueError` for February 30 and
the handler reprompts. -/
theorem claim_C3_counterexample :
    parseYMD "2025-02-30" = some (2025, 2, 30)
    ∧ get_valid_date_step "2025-02-30" = DateOutcome.repromptFormat
    ∧ get_valid_date_step "2025-02-30" ≠ DateOutcome.accepted 2025 2 30 := by
  refine ⟨by decide, by decide, by decide⟩

/-- Claim C3, amended: a date string whose components satisfy the explicit
bounds (year 2000-2100, month 1-12, day 1-31) is accepted if and only if
the day also exists in the given month - the `datetime` constructor
calendar-validates, and its `ValueError` is handled exactly like a format
error, causing a reprompt.  So `"2025-02-30"` is rejected with a reprompt
rather than returned as a date. -/
theorem claim_C3_amended (s : String) (y m d : Int)
    (hp : parseYMD s = some (y, m, d))
    (hb : ¬(y < 2000 ∨ y > 2100 ∨ m < 1 ∨ m > 12 ∨ d < 1 ∨ d > 31)) :
    get_valid_date_step s = DateOutcome.accepted y m d ↔ d ≤ daysInMonth y m := by
  have hs : s ≠ "" := by
    intro h
    rw [h, show parseYMD "" = none from by decide] at hp
    exact Option.noConfusion hp
  unfold get_valid_date_step
  rw [if_neg hs, hp]
  show (if y < 2000 ∨ y > 2100 ∨ m < 1 ∨ m > 12 ∨ d < 1 ∨ d > 31 then DateOutcome.repromptRange
      else if datetimeValid y m d then DateOutcome.accepted y m d
      else DateOutcome.repromptFormat)
    = DateOutcome.accepted y m d ↔ d ≤ daysInMonth y m
  rw [if_neg hb]
  push_neg at hb
  obtain ⟨h1, h2, h3, h4, h5, h6⟩ := hb
  constructor
  · intro hacc
    by_cases hv : datetimeValid y m d
    · exact hv.2.2.2.2.2
    · rw [if_neg hv] at hacc
      exact DateOutcome.noConfusion hacc
  · intro hd
    have hv : datetimeValid y m d :=
      ⟨by omega, by omega, h3, by omega, h5, hd⟩
    rw [if_pos hv]

/-- Witness for C3 (amended) at concrete inputs: a calendar-valid date
within bounds is accepted, with all hypotheses discharged by evaluation. -/
theorem claim_C3_witness :
    get_valid_date_step "2025-03-15" = DateOutcome.accepted 2025 3 15 :=
  (claim_C3_amended "2025-03-15" 2025 3 15 (by decide) (by decide)).mpr (by decide)

/-! ## demoPullRequests.py: format_data_display (lines 83-164)

The input DataFrame is built with `pd.DataFrame(data)` from the JSON list
of reading records.  A record is embedded as a `Reading`; a pandas column
exists exactly when some record carries the field, and a record missing a
field of an existing column holds NaN, embedded as `none`.  Timestamps are
epoch-second instants: `pd.to_datetime / tz_localize('UTC') /
tz_convert(America/Los_Angeles) / strftime` of lines 93-94 change only the
rendering of each instant, never the instant itself nor the row order, so
the formatted timestamp column is carried as the instants themselves.
Extra columns beyond `timestamp`, `data`, `unit` are never displayed or
read and are outside the model. -/

/-- One reading record of the JSON response. -/
structure Reading where
  timestamp : Option Int
  data : Option ℚ
  unit : Option String
deriving DecidableEq, Repr

/-- Whether the DataFrame has a `timestamp` column. -/
def hasTimestampCol (rows : List Reading) : Bool :=
  rows.any (fun r => r.timestamp.isSome)

/-- Whether the DataFrame has a `data` column. -/
def hasDataCol (rows : List Reading) : Bool :=
  rows.any (fun r => r.data.isSome)

/-- Whether the DataFrame has a `unit` column. -/
def hasUnitCol (rows : List Reading) : Bool :=
  rows.any (fun r => r.unit.isSome)

/-- Line 97: `df['data'] if 'data' in df.columns else pd.Series(dtype=float)`;
when the column exists the series has one entry per row (NaN as `none`),
otherwise it is the empty series. -/
def dataValues (rows : List Reading) : List (Option ℚ) :=
  if hasDataCol rows then rows.map (fun r => r.data) else []

/-- `pandas.Series.mean`: the mean of the non-NaN entries, NaN (`none`)
when there is none. -/
def seriesMean (xs : List (Option ℚ)) : Option ℚ :=
  let v := xs.filterMap id
  if v.length = 0 then none else some (v.sum / v.length)

/-- `pandas.Series.max`: the maximum of the non-NaN entries, NaN (`none`)
when there is none. -/
def seriesMax (xs : List (Option ℚ)) : Option ℚ :=
  (xs.filterMap id).max?

/-- Python `str.capitalize`: first character upper-cased, the rest
lower-cased (ASCII suffices for the measurement names in play). -/
def pyCapitalize (s : String) : String :=
  match s.data with
  | [] => ""
  | c :: cs => String.mk (c.toUpper :: cs.map Char.toLower)

/-- The unit / measurement-name pair of lines 100-115.  In the fallback
branch the unit comes from the first row's `unit` field when the column
exists (a per-row NaN would render as `nan`), else it is `units`. -/
def unitAndName (rows : List Reading) (measurement_type : String) : String × String :=
  if measurement_type = "pressure" then ("kPa", "Pressure")
  else if measurement_type = "humidity" then ("%", "Humidity")
  else if measurement_type = "flow rate" then ("L/min", "Flow Rate")
  else
    ((if hasUnitCol rows ∧ 0 < rows.length then
        ((rows.headD ⟨none, none, none⟩).unit).getD "nan"
      else "units"),
     pyCapitalize measurement_type)

/-- A summary-statistics value that renders either as `N/A` or as a number
(`num none` being pandas NaN, which the f-string renders as `nan`). -/
inductive StatVal
  | na
  | num (q : Option ℚ)
deriving DecidableEq, Repr

/-- The `Time Range` field: `N/A`, or first and last entries of the
(formatted) timestamp column. -/
inductive TimeRangeVal
  | na
  | range (first last : Option Int)
deriving DecidableEq, Repr

/-- The stats dict of lines 117-128. -/
structure FdStats where
  cellId : Nat
  measurementName : String
  timeRange : TimeRangeVal
  dataPoints : Nat
  avg : StatVal
  max : StatVal
deriving DecidableEq, Repr

/-- Output events of `format_data_display`: the header block (lines
138-139), the stats lines (lines 140-142), the tabulated grid over the two
display columns as (timestamp instant, value) rows (lines 146-160), and
the empty-table message (line 162). -/
inductive FdEvent
  | headerOut (cellId : Nat) (measurementName : String)
  | statsOut (stats : FdStats)
  | tableOut (tableRows : List (Option Int × Option ℚ))
  | noDataMsg
deriving DecidableEq, Repr

/-- What `format_data_display` did: everything printed before control left
the function, and the uncaught exception if one was raised. -/
structure FdOutcome where
  printed : List FdEvent
  error : Option PyErr
deriving DecidableEq, Repr

/-- The stats dict construction (lines 117-128).  Evaluating the
`Time Range` entry indexes `df['timestamp']` when the frame is nonempty,
raising `KeyError` if that column is missing; the other entries cannot
raise.  `Avg`/`Max` render as `N/A` exactly when the data series is empty
(line 97 series). -/
def statsOf (rows : List Reading) (cell_id : Nat) (mname : String) : Except PyErr FdStats :=
  let dvals := dataValues rows
  let avg : StatVal := if dvals.isEmpty then .na else .num (seriesMean dvals)
  let mx : StatVal := if dvals.isEmpty then .na else .num (seriesMax dvals)
  if 0 < rows.length then
    if hasTimestampCol rows then
      .ok ⟨cell_id, mname,
        .range ((rows.headD ⟨none, none, none⟩).timestamp)
          ((rows.getLastD ⟨none, none, none⟩).timestamp),
        rows.length, avg, mx⟩
    else .error (.keyError ["timestamp"])
  else .ok ⟨cell_id, mname, .na, rows.length, avg, mx⟩

/-- Embedding of `format_data_display` (lines 83-164).  The stats dict is
built first (it can raise before anything is printed); then the header and
stats print; then, for a nonempty frame, the selection
`df[["Measurement Time (PT)", column_name]]` raises `KeyError` when either
renamed display column is missing (the rename of line 135 renames only
columns that exist), otherwise the grid table prints; an empty frame
prints the no-data message instead. -/
def format_data_display (rows : List Reading) (cell_id : Nat)
    (measurement_type : String) : FdOutcome :=
  let um := unitAndName rows measurement_type
  let columnName := um.2 ++ " (" ++ um.1 ++ ")"
  match statsOf rows cell_id um.2 with
  | .error e => ⟨[], some e⟩
  | .ok st =>
    let headerEvts := [FdEvent.headerOut cell_id um.2, FdEvent.statsOut st]
    if 0 < rows.length then
      let missing :=
        (if hasTimestampCol rows then [] else ["Measurement Time (PT)"])
          ++ (if hasDataCol rows then [] else [columnName])
      if missing.isEmpty then
        ⟨headerEvts ++ [FdEvent.tableOut (rows.map (fun r => (r.timestamp, r.data)))], none⟩
      else ⟨headerEvts, some (.keyError missing)⟩
    else ⟨headerEvts ++ [FdEvent.noDataMsg], none⟩

/-- Claim C5: on an empty reading sequence `format_data_display` never
raises; the time-range field and the mean and max fields render as `N/A`,
the data-points count renders as 0, and the empty-table message prints
instead of a table. -/
theorem claim_C5 (cell_id : Nat) (measurement_type : String) :
    (format_data_display [] cell_id measurement_type).error = none
    ∧ (format_data_display [] cell_id measurement_type).printed
      = [FdEvent.headerOut cell_id (unitAndName [] measurement_type).2,
         FdEvent.statsOut ⟨cell_id, (unitAndName [] measurement_type).2,
           TimeRangeVal.na, 0, StatVal.na, StatVal.na⟩,
         FdEvent.noDataMsg] := by
  constructor <;> rfl

/-- Claim C6: `format_data_display` preserves the order of its input rows.
For a well-formed reading sequence (every record has a timestamp and a
value), the rendered table is exactly the positional image of the input
rows - no re-sorting occurs - so when the input timestamps are
non-decreasing, the timestamps listed in the table are the same
non-decreasing sequence. -/
theorem claim_C6 (rows : List Reading) (cell_id : Nat) (measurement_type : String)
    (hne : rows ≠ [])
    (hts : ∀ r ∈ rows, r.timestamp.isSome = true)
    (hdata : ∀ r ∈ rows, r.data.isSome = true)
    (hsorted : List.Pairwise (fun a b => a ≤ b) (rows.filterMap (fun r => r.timestamp))) :
    (format_data_display rows cell_id measurement_type).error = none
    ∧ FdEvent.tableOut (rows.map (fun r => (r.timestamp, r.data)))
        ∈ (format_data_display rows cell_id measurement_type).printed
    ∧ (rows.map (fun r => (r.timestamp, r.data))).filterMap Prod.fst
        = rows.filterMap (fun r => r.timestamp)
    ∧ List.Pairwise (fun a b => a ≤ b)
        ((rows.map (fun r => (r.timestamp, r.data))).filterMap Prod.fst) := by
  obtain ⟨r0, rs, rfl⟩ : ∃ r0 rs, rows = r0 :: rs := by
    cases rows with
    | nil => exact absurd rfl hne
    | cons a l => exact ⟨a, l, rfl⟩
  have hmap : ((r0 :: rs).map (fun r => (r.timestamp, r.data))).filterMap Prod.fst
      = (r0 :: rs).filterMap (fun r => r.timestamp) := by
    rw [List.filterMap_map]
    rfl
  have hT : hasTimestampCol (r0 :: rs) = true := by
    unfold hasTimestampCol
    rw [List.any_eq_true]
    exact ⟨r0, List.mem_cons_self r0 rs, hts r0 (List.mem_cons_self r0 rs)⟩
  have hD : hasDataCol (r0 :: rs) = true := by
    unfold hasDataCol
    rw [List.any_eq_true]
    exact ⟨r0, List.mem_cons_self r0 rs, hdata r0 (List.mem_cons_self r0 rs)⟩
  have hout : format_data_display (r0 :: rs) cell_id measurement_type
      = ⟨[FdEvent.headerOut cell_id (unitAndName (r0 :: rs) measurement_type).2,
          FdEvent.statsOut ⟨cell_id, (unitAndName (r0 :: rs) measurement_type).2,
            .range r0.timestamp ((r0 :: rs).getLastD ⟨none, none, none⟩).timestamp,
            (r0 :: rs).length,
            .num (seriesMean (dataValues (r0 :: rs))),
            .num (seriesMax (dataValues (r0 :: rs)))⟩,
          FdEvent.tableOut ((r0 :: rs).map (fun r => (r.timestamp, r.data)))], none⟩ := by
    unfold format_data_display statsOf
    have hdv : (dataValues (r0 :: rs)).isEmpty = false := by
      unfold dataValues
      rw [if_pos hD]
      rfl
    simp only [hdv, hT, hD, List.length_cons, Nat.zero_lt_succ, if_pos, if_true,
      Bool.false_eq_true, if_false, List.isEmpty_nil, List.append_nil, List.nil_append]
    rfl
  refine ⟨by rw [hout], by rw [hout]; simp, hmap, ?_⟩
  rw [hmap]
  exact hsorted

/-- Claim C10: graceful empty-input handling does not extend to malformed
nonempty input.  For a nonempty sequence of records that carry timestamps
but no `data` field, the summary statistics print with `N/A` mean and max,
but the table step then raises (the renamed value column does not exist in
the frame), so the formatter fails without printing a table. -/
theorem claim_C10 (rows : List Reading) (cell_id : Nat) (measurement_type : String)
    (hne : rows ≠ [])
    (hnd : ∀ r ∈ rows, r.data = none)
    (hts : ∀ r ∈ rows, r.timestamp.isSome = true) :
    (format_data_display rows cell_id measurement_type).error.isSome = true
    ∧ (∃ st : FdStats, FdEvent.statsOut st
          ∈ (format_data_display rows cell_id measurement_type).printed
        ∧ st.avg = StatVal.na ∧ st.max = StatVal.na)
    ∧ (∀ t, FdEvent.tableOut t ∉ (format_data_display rows cell_id measurement_type).printed) := by
  obtain ⟨r0, rs, rfl⟩ : ∃ r0 rs, rows = r0 :: rs := by
    cases rows with
    | nil => exact absurd rfl hne
    | cons a l => exact ⟨a, l, rfl⟩
  have hT : hasTimestampCol (r0 :: rs) = true := by
    unfold hasTimestampCol
    rw [List.any_eq_true]
    exact ⟨r0, List.mem_cons_self r0 rs, hts r0 (List.mem_cons_self r0 rs)⟩
  have hD : hasDataCol (r0 :: rs) = false := by
    unfold hasDataCol
    rw [List.any_eq_false]
    intro r hr
    rw [hnd r hr]
    simp
  have hdv : (dataValues (r0 :: rs)).isEmpty = true := by
    unfold dataValues
    rw [hD]
    rfl
  have hout : format_data_display (r0 :: rs) cell_id measurement_type
      = ⟨[FdEvent.headerOut cell_id (unitAndName (r0 :: rs) measurement_type).2,
          FdEvent.statsOut ⟨cell_id, (unitAndName (r0 :: rs) measurement_type).2,
            .range r0.timestamp ((r0 :: rs).getLastD ⟨none, none, none⟩).timestamp,
            (r0 :: rs).length, .na, .na⟩],
         some (.keyError [(unitAndName (r0 :: rs) measurement_type).2 ++ " ("
           ++ (unitAndName (r0 :: rs) measurement_type).1 ++ ")"])⟩ := by
    unfold format_data_display statsOf
    simp only [hdv, hT, hD, List.length_cons, Nat.zero_lt_succ, if_pos, if_true,
      Bool.false_eq_true, if_false, List.nil_append]
    rfl
  refine ⟨by rw [hout]; rfl, ?_, ?_⟩
  · refine ⟨⟨cell_id, (unitAndName (r0 :: rs) measurement_type).2,
      .range r0.timestamp ((r0 :: rs).getLastD ⟨none, none, none⟩).timestamp,
      (r0 :: rs).length, .na, .na⟩, ?_, rfl, rfl⟩
    rw [hout]
    simp
  · intro t
    rw [hout]
    simp

/-- Witness for C6 at a concrete two-row sorted input. -/
theorem claim_C6_witness :
    FdEvent.tableOut [(some 100, some 10), (some 200, some 20)]
      ∈ (format_data_display
          [⟨some 100, some 10, none⟩, ⟨some 200, some 20, none⟩] 1448 "humidity").printed :=
  (claim_C6 [⟨some 100, some 10, none⟩, ⟨some 200, some 20, none⟩] 1448 "humidity"
    (by decide) (by decide) (by decide) (by decide)).2.1

/-- Witness for C10 at a concrete one-row input with a timestamp and no
value field: the formatter ends in an error. -/
theorem claim_C10_witness :
    (format_data_display [⟨some 100, none, none⟩] 1448 "humidity").error.isSome = true
    ∧ (∀ t, FdEvent.tableOut t
        ∉ (format_data_display [⟨some 100, none, none⟩] 1448 "humidity").printed) := by
  obtain ⟨h1, _, h3⟩ :=
    claim_C10 [⟨some 100, none, none⟩] 1448 "humidity" (by decide) (by decide) (by decide)
  exact ⟨h1, h3⟩

/-! ## demoPullRequests.py: the HTTP requests of DirtVizClient (lines 16-80)

Each request issued through `self.session.get` is embedded as the record
of its observable request parameters.  The RFC-1123 GMT rendering of the
window instants (`strftime("%a, %d %b %Y %H:%M:%S GMT")` after conversion
to UTC) changes only the rendering of each instant, so the window is
carried as the pair of instants; `astimezone(pytz.UTC)` does not move an
instant. -/

/-- The observable parameters of one `session.get` call. -/
structure RequestSpec where
  method : String
  endpointPath : String
  windowParams : Option (Int × Int)
  streamFlag : Bool
  timeout : Option Nat
deriving DecidableEq, Repr

/-- Embedding of the request issued by `DirtVizClient.get_sensor_data`
(lines 22-39): the endpoint carries name/measurement/cellId, the optional
start/end instants become `startTime`/`endTime` parameters, there is no
`stream` parameter, and the `session.get` call of line 37 passes no
`timeout` argument, so the `requests` default of no timeout applies. -/
def get_sensor_data_request (name measurement : String) (cellId : Nat)
    (window : Option (Int × Int)) : RequestSpec :=
  { method := "GET"
    endpointPath := "sensor/?name=" ++ name ++ "&measurement=" ++ measurement
      ++ "&cellId=" ++ toString cellId
    windowParams := window
    streamFlag := false
    timeout := none }

/-- Embedding of the request issued by `DirtVizClient.get_sen0308_stream`
(lines 41-71): a fixed sen0308/humidity endpoint for the given cell, the
window `[now - time_window, now]`, the `stream=true` parameter, and the
explicit `timeout=15` of line 69. -/
def get_sen0308_stream_request (cell_id : Nat) (now : Int) (time_window : Nat) :
    RequestSpec :=
  { method := "GET"
    endpointPath := "sensor/?name=sen0308&measurement=humidity&cellId=" ++ toString cell_id
    windowParams := some (now - time_window, now)
    streamFlag := true
    timeout := some 15 }

/-- Counterexample to claim C7 as stated.  The claim says every HTTP
request issued by the sensor-data client carries an explicit timeout
between 5 and 15 seconds.  But the `session.get` of `get_sensor_data`
(line 37) passes no timeout at all, so a concrete query for cell 1350
pressure data carries none - that call can block indefinitely. -/
theorem claim_C7_counterexample :
    (get_sensor_data_request "sen0257" "pressure" 1350 none).timeout = none
    ∧ ¬ ∃ t, (get_sensor_data_request "sen0257" "pressure" 1350 none).timeout = some t
        ∧ 5 ≤ t ∧ t ≤ 15 := by
  refine ⟨rfl, ?_⟩
  rintro ⟨t, ht, -⟩
  exact Option.noConfusion ht

/-- Claim C7, amended: of the two request sites of the sensor-data client,
only `get_sen0308_stream` passes an explicit timeout, 15 seconds (within
the 5-15 second range); `get_sensor_data` passes no timeout, so that
request is not bounded by any configured timeout. -/
theorem claim_C7_amended (name measurement : String) (cellId cell_id : Nat)
    (window : Option (Int × Int)) (now : Int) (time_window : Nat) :
    (get_sensor_data_request name measurement cellId window).timeout = none
    ∧ (get_sen0308_stream_request cell_id now time_window).timeout = some 15
    ∧ 5 ≤ 15 ∧ 15 ≤ 15 := by
  exact ⟨rfl, rfl, by decide, by decide⟩

/-! ## demoPullRequests.py: get_sen0308_stream error handling (lines 67-80) -/

/-- The outcome of the `session.get` call of line 69 as seen by the code:
a transport-level failure (`requests.exceptions.RequestException`), or a
response with a status code and a body that either is valid JSON (a list
of reading records) or is not. -/
inductive HttpOutcome
  | netErr (msg : String)
  | resp (status : Nat) (body : Option (List Reading))
deriving DecidableEq, Repr

/-- The body of the `try` block of lines 67-71: `raise_for_status` raises
`HTTPError` (a `RequestException`) for status codes 400-599, and
`response.json()` raises `requests.exceptions.JSONDecodeError` (also a
`RequestException` in the bundled requests version) on a non-JSON body. -/
def sen0308TryBody (out : HttpOutcome) : Except PyErr (List Reading) :=
  match out with
  | .netErr m => .error (.requestExc m)
  | .resp status body =>
    if 400 ≤ status then .error (.requestExc ("HTTPError " ++ toString status))
    else
      match body with
      | none => .error (.requestExc "JSONDecodeError")
      | some v => .ok v

/-- Embedding of `get_sen0308_stream` (lines 41-80) as a function of the
request outcome: the streaming announcement prints first (line 68, inside
the `try`); a `RequestException` is caught and reported by lines 73-77 and
an empty list returned; any other exception is caught and reported by
lines 78-80 and an empty list returned; only a successful request returns
the parsed body.  The function returns prints plus result - it has no
error component because every exception of the body is caught. -/
def get_sen0308_stream (time_window : Nat) (out : HttpOutcome) :
    List String × List Reading :=
  let streamMsg := "Streaming sen0308 humidity data from last "
    ++ toString time_window ++ " seconds..."
  match sen0308TryBody out with
  | .ok v => ([streamMsg], v)
  | .error (.requestExc m) => ([streamMsg, "Error getting stream: " ++ m], [])
  | .error _ => ([streamMsg, "Unexpected error"], [])

/-- Claim C8: `get_sen0308_stream` never propagates an exception.  For
every request outcome it either returns the parsed JSON body of a
successful (status below 400) response, or prints a diagnostic beyond the
streaming announcement and returns the empty sequence. -/
theorem claim_C8 (time_window : Nat) (out : HttpOutcome) :
    (∃ status v, out = HttpOutcome.resp status (some v) ∧ status < 400
      ∧ get_sen0308_stream time_window out
        = (["Streaming sen0308 humidity data from last "
            ++ toString time_window ++ " seconds..."], v))
    ∨ ((get_sen0308_stream time_window out).2 = []
      ∧ ∃ d, (get_sen0308_stream time_window out).1
        = ["Streaming sen0308 humidity data from last "
            ++ toString time_window ++ " seconds...", d]) := by
  cases out with
  | netErr m =>
    right
    exact ⟨rfl, "Error getting stream: " ++ m, rfl⟩
  | resp status body =>
    by_cases hs : 400 ≤ status
    · right
      constructor
      · simp [get_sen0308_stream, sen0308TryBody, hs]
      · refine ⟨"Error getting stream: " ++ ("HTTPError " ++ toString status), ?_⟩
        simp [get_sen0308_stream, sen0308TryBody, hs]
    · cases body with
      | none =>
        right
        constructor
        · simp [get_sen0308_stream, sen0308TryBody, hs]
        · refine ⟨"Error getting stream: " ++ "JSONDecodeError", ?_⟩
          simp [get_sen0308_stream, sen0308TryBody, hs]
      | some v =>
        left
        refine ⟨status, v, rfl, by omega, ?_⟩
        simp [get_sen0308_stream, sen0308TryBody, hs]

end IrrigationDemo
